import Mathlib

/-!
Shallow embedding of the core of the bus fleet monitoring backend
(`backend/server.py`): the geo helpers `calculate_distance` and
`interpolate_position`, the transit query resolver `find_buses`, and the
aggregate report `get_fleet_status`, together with proofs of the spec
claims about them.

Modelling conventions:
* Python floats are modelled by exact real numbers (`ℝ`) where
  trigonometry is involved, and by exact rationals (`ℚ`) where only
  integer division is involved, so that those parts stay executable.
* Python `int()` truncation toward zero is `pyInt` (on `ℝ`) / `pyIntQ`
  (on `ℚ`).
* `random.randint(2, 8)` is modelled by an injected jitter source
  `jitter : ℕ → ℤ`, indexed by the number of `randint` calls made so
  far; theorems that need the range constrain it by hypothesis.
* MongoDB queries are modelled over the in-memory lists of a `DB`
  record: `find_one` with a case-insensitive `$regex` becomes
  `List.find?` with a case-insensitive substring test (queries are
  plain stop names, without regex metacharacters), `$all` becomes
  membership of both ids, and natural order is list order.
* `datetime.now()` is an injected `now : ℕ` (minutes since midnight);
  wall-clock-only fields (`last_updated`) are omitted.
* Python's `list.sort(key=...)` is a stable sort; it is modelled by a
  stable insertion sort `sortByEta` (stable sorts agree on output).
-/

namespace BusFleet

/-! ## Case-insensitive substring matching (the `$regex ... $options i` lookup) -/

/-- `matchHere hay needle` is true when `needle` occurs at the very start of `hay`. -/
def matchHere : List Char → List Char → Bool
  | _, [] => true
  | [], _ :: _ => false
  | a :: as, b :: bs => a == b && matchHere as bs

/-- `containsSub hay needle` is true when `needle` occurs contiguously anywhere in `hay`. -/
def containsSub : List Char → List Char → Bool
  | [], needle => needle.isEmpty
  | c :: rest, needle => matchHere (c :: rest) needle || containsSub rest needle

/-- Case-insensitive substring test: does `hay` contain `needle`, ignoring case?
Models the MongoDB lookup `{"name": {"$regex": query, "$options": "i"}}` for a
plain (metacharacter-free) query string. -/
def strContainsCI (hay needle : String) : Bool :=
  containsSub (hay.data.map Char.toLower) (needle.data.map Char.toLower)

/-! ## Geo helpers (`calculate_distance`, `interpolate_position`) -/

/-- `math.radians`: degrees to radians. -/
noncomputable def radians (deg : ℝ) : ℝ := deg * Real.pi / 180

/-- `math.atan2 y x`, the two-argument arctangent. -/
noncomputable def atan2 (y x : ℝ) : ℝ :=
  if 0 < x then Real.arctan (y / x)
  else if x < 0 then
    (if 0 ≤ y then Real.arctan (y / x) + Real.pi else Real.arctan (y / x) - Real.pi)
  else
    (if 0 < y then Real.pi / 2 else if y < 0 then -(Real.pi / 2) else 0)

/-- The haversine intermediate `a` of `calculate_distance`:
`sin(Δlat/2)² + cos(lat1)·cos(lat2)·sin(Δlng/2)²` (angles in radians). -/
noncomputable def hav_a (lat1 lng1 lat2 lng2 : ℝ) : ℝ :=
  Real.sin (radians (lat2 - lat1) / 2) * Real.sin (radians (lat2 - lat1) / 2) +
    Real.cos (radians lat1) * Real.cos (radians lat2) *
      (Real.sin (radians (lng2 - lng1) / 2) * Real.sin (radians (lng2 - lng1) / 2))

/-- `calculate_distance(lat1, lng1, lat2, lng2)`: haversine distance in km with
Earth radius `R = 6371`, via `c = 2·atan2(√a, √(1−a))` and result `R·c`. -/
noncomputable def calculate_distance (lat1 lng1 lat2 lng2 : ℝ) : ℝ :=
  6371 * (2 * atan2 (Real.sqrt (hav_a lat1 lng1 lat2 lng2))
    (Real.sqrt (1 - hav_a lat1 lng1 lat2 lng2)))

/-- `interpolate_position(start_lat, start_lng, end_lat, end_lng, progress)`:
componentwise linear blend of the two coordinates. -/
noncomputable def interpolate_position (start_lat start_lng end_lat end_lng progress : ℝ) :
    ℝ × ℝ :=
  (start_lat + (end_lat - start_lat) * progress,
   start_lng + (end_lng - start_lng) * progress)

/-! ## Python `int()` truncation -/

/-- Python `int()` on a real float value: truncation toward zero. -/
noncomputable def pyInt (x : ℝ) : ℤ := if 0 ≤ x then ⌊x⌋ else ⌈x⌉

/-- Python `int()` on an exact rational float value: truncation toward zero. -/
def pyIntQ (q : ℚ) : ℤ := if 0 ≤ q then ⌊q⌋ else ⌈q⌉

/-! ## Data model (`BusStop`, `Route`, `Bus`, the persisted collections) -/

/-- A bus stop document (wall-clock-free part of the Pydantic `BusStop`). -/
structure BusStop where
  id : String
  name : String
  lat : ℝ
  lng : ℝ
  city : String

/-- A route document: ordered stop ids plus static metadata. -/
structure Route where
  id : String
  name : String
  stops : List String
  distance_km : ℝ
  estimated_duration_minutes : ℤ
  city : String

/-- A bus document (the `last_updated` wall-clock field is omitted). -/
structure Bus where
  id : String
  bus_number : String
  route_id : String
  capacity : ℤ
  current_occupancy : ℤ
  current_lat : ℝ
  current_lng : ℝ
  current_stop_index : ℤ
  direction : ℤ
  status : String

/-- The MongoDB collections `bus_stops`, `routes`, `buses`, in natural order. -/
structure DB where
  bus_stops : List BusStop
  routes : List Route
  buses : List Bus

/-- The `BusQueryResponse` Pydantic model. -/
structure BusQueryResponse where
  bus_number : String
  route_name : String
  eta_minutes : ℤ
  occupancy_percentage : ℤ
  available_seats : ℤ
  next_arrival : String
deriving DecidableEq

/-- A FastAPI `HTTPException`: status code and detail message. -/
structure HTTPException where
  status_code : ℤ
  detail : String
deriving DecidableEq

/-! ## The transit query resolver (`find_buses`) -/

/-- `db.routes.find({"stops": {"$all": [a, b]}})`: every route whose stop
sequence contains both ids, in natural order. -/
def routes_containing_both (db : DB) (a b : String) : List Route :=
  db.routes.filter (fun r => r.stops.contains a && r.stops.contains b)

/-- `db.buses.find({"route_id": route.id, "status": "active"})`. -/
def active_buses_on (db : DB) (r : Route) : List Bus :=
  db.buses.filter (fun b => b.route_id == r.id && b.status == "active")

/-- The `(route, bus)` pairs visited by the nested loops of `find_buses`,
in iteration order. -/
def route_bus_pairs (db : DB) : List Route → List (Route × Bus)
  | [] => []
  | r :: rest => (active_buses_on db r).map (fun b => (r, b)) ++ route_bus_pairs db rest

/-- The `int(distance_to_from / 20 * 60)` part of the ETA computed for one bus:
truncated minutes to cover the straight-line distance at 20 km/h. -/
noncomputable def eta_base (b : Bus) (fs : BusStop) : ℤ :=
  pyInt (calculate_distance b.current_lat b.current_lng fs.lat fs.lng / 20 * 60)

/-- `strftime("%H:%M")` zero-padded two-digit rendering. -/
def two_digits (n : ℕ) : String :=
  (if n < 10 then "0" else "") ++ toString n

/-- `(datetime.now() + timedelta(minutes=eta)).strftime("%H:%M")`, with the
current time given as minutes since midnight. -/
def format_hm (m : ℕ) : String :=
  two_digits (m / 60 % 24) ++ ":" ++ two_digits (m % 60)

/-- One `BusQueryResponse` as built in the body of the inner loop of
`find_buses`; `k` is the index of this bus's `randint` call in `jitter`. -/
noncomputable def bus_result (now : ℕ) (jitter : ℕ → ℤ) (k : ℕ) (fs : BusStop)
    (r : Route) (b : Bus) : BusQueryResponse :=
  { bus_number := b.bus_number
    route_name := r.name
    eta_minutes := eta_base b fs + jitter k
    occupancy_percentage := pyIntQ ((b.current_occupancy : ℚ) / (b.capacity : ℚ) * 100)
    available_seats := b.capacity - b.current_occupancy
    next_arrival := format_hm (now + (eta_base b fs + jitter k).toNat) }

/-- The `results.append(...)` loop over the `(route, bus)` pairs, threading the
index of the next `randint` call. -/
noncomputable def collect_aux (now : ℕ) (jitter : ℕ → ℤ) (fs : BusStop) (k : ℕ) :
    List (Route × Bus) → List BusQueryResponse
  | [] => []
  | (r, b) :: rest => bus_result now jitter k fs r b :: collect_aux now jitter fs (k + 1) rest

/-- All results collected by the nested loops of `find_buses`. -/
noncomputable def collect_results (db : DB) (now : ℕ) (jitter : ℕ → ℤ) (fs : BusStop)
    (routes : List Route) : List BusQueryResponse :=
  collect_aux now jitter fs 0 (route_bus_pairs db routes)

/-- Stable insertion of a result into a list sorted by `eta_minutes`: the new
element goes after every element with an equal or smaller key. -/
def insertByEta (x : BusQueryResponse) : List BusQueryResponse → List BusQueryResponse
  | [] => [x]
  | y :: ys => if y.eta_minutes < x.eta_minutes then y :: insertByEta x ys else x :: y :: ys

/-- `results.sort(key=lambda x: x.eta_minutes)`: Python's stable sort, modelled
by stable insertion sort (stable sorts have a unique output). -/
def sortByEta : List BusQueryResponse → List BusQueryResponse
  | [] => []
  | x :: xs => insertByEta x (sortByEta xs)

/-- The body of the `try:` block of `find_buses`: resolve both stop names,
raise 404 when either lookup fails, otherwise collect and sort the results. -/
noncomputable def find_buses_inner (db : DB) (now : ℕ) (jitter : ℕ → ℤ)
    (from_stop to_stop : String) : Except HTTPException (List BusQueryResponse) :=
  match db.bus_stops.find? (fun s => strContainsCI s.name from_stop),
        db.bus_stops.find? (fun s => strContainsCI s.name to_stop) with
  | some fs, some ts =>
      Except.ok (sortByEta (collect_results db now jitter fs
        (routes_containing_both db fs.id ts.id)))
  | _, _ => Except.error ⟨404, "One or both stops not found"⟩

/-- `find_buses` as seen by the caller: the `except Exception` clause catches
every exception raised in the `try:` block — including the 404
`HTTPException` itself — and re-raises a 500 "Error finding buses". -/
noncomputable def find_buses (db : DB) (now : ℕ) (jitter : ℕ → ℤ)
    (from_stop to_stop : String) : Except HTTPException (List BusQueryResponse) :=
  match find_buses_inner db now jitter from_stop to_stop with
  | Except.ok results => Except.ok results
  | Except.error _ => Except.error ⟨500, "Error finding buses"⟩

/-! ## The fleet status aggregate (`get_fleet_status`) -/

/-- The aggregate returned by `get_fleet_status` (the `last_updated`
wall-clock field is omitted). -/
structure FleetStatus where
  total_buses : ℕ
  active_buses : ℕ
  offline_buses : ℤ
  total_capacity : ℤ
  current_occupancy : ℤ
  occupancy_rate : ℚ
  buses : List Bus
  routes : ℕ

/-- `get_fleet_status`: counts, capacity/occupancy sums, and the
zero-guarded occupancy rate. -/
def get_fleet_status (db : DB) : FleetStatus :=
  { total_buses := db.buses.length
    active_buses := (db.buses.filter (fun b => b.status == "active")).length
    offline_buses := (db.buses.length : ℤ) -
      ((db.buses.filter (fun b => b.status == "active")).length : ℤ)
    total_capacity := (db.buses.map Bus.capacity).sum
    current_occupancy := (db.buses.map Bus.current_occupancy).sum
    occupancy_rate :=
      if 0 < (db.buses.map Bus.capacity).sum then
        ((db.buses.map Bus.current_occupancy).sum : ℚ) /
          ((db.buses.map Bus.capacity).sum : ℚ) * 100
      else 0
    buses := db.buses
    routes := db.routes.length }

/-! ## The spec's rounding (for comparison with the code's truncation) -/

/-- Modelled from the spec: `occupancy_percentage = round(100 * occupancy /
capacity)`, with the conventional round-half-up that produces the spec's
claimed values (97.5 ↦ 98, 12.5 ↦ 13). -/
def spec_round (q : ℚ) : ℤ := ⌊q + 1 / 2⌋

/-! ## Concrete sample catalogs, used by the scenario theorems -/

/-- Delhi's "Red Fort" stop from `INDIAN_CITIES_DATA`. -/
noncomputable def redFort : BusStop :=
  { id := "stop-1", name := "Red Fort", lat := 28.6562, lng := 77.2410, city := "Delhi" }

/-- Delhi's "India Gate" stop from `INDIAN_CITIES_DATA`. -/
noncomputable def indiaGate : BusStop :=
  { id := "stop-2", name := "India Gate", lat := 28.6129, lng := 77.2295, city := "Delhi" }

/-- The "Red Line" route through both stops. -/
noncomputable def redLine : Route :=
  { id := "route-1", name := "Red Line", stops := ["stop-1", "stop-2"],
    distance_km := 25.5, estimated_duration_minutes := 45, city := "Delhi" }

/-- An active bus at Red Fort's coordinate with occupancy 39/40; its catalog
position (first) and its identity ("bus-2" / "DL-02") are deliberately in
opposite orders. -/
noncomputable def busA : Bus :=
  { id := "bus-2", bus_number := "DL-02", route_id := "route-1", capacity := 40,
    current_occupancy := 39, current_lat := redFort.lat, current_lng := redFort.lng,
    current_stop_index := 0, direction := 1, status := "active" }

/-- An active bus at Red Fort's coordinate with occupancy 5/40, identity
"bus-1" / "DL-01", stored after `busA`. -/
noncomputable def busB : Bus :=
  { id := "bus-1", bus_number := "DL-01", route_id := "route-1", capacity := 40,
    current_occupancy := 5, current_lat := redFort.lat, current_lng := redFort.lng,
    current_stop_index := 0, direction := 1, status := "active" }

/-- A bus in maintenance on the same route, excluded from query results. -/
noncomputable def busM : Bus :=
  { id := "bus-3", bus_number := "DL-03", route_id := "route-1", capacity := 40,
    current_occupancy := 10, current_lat := redFort.lat, current_lng := redFort.lng,
    current_stop_index := 0, direction := 1, status := "maintenance" }

/-- The concrete seeded database for the scenario theorems. -/
noncomputable def masterDB : DB :=
  { bus_stops := [redFort, indiaGate], routes := [redLine], buses := [busA, busB, busM] }

/-- A database with no documents at all. -/
def emptyDB : DB := { bus_stops := [], routes := [], buses := [] }

/-- A constant jitter source: every `randint(2, 8)` call returns 3. -/
def j3 : ℕ → ℤ := fun _ => 3

/-- The result `find_buses` produces for `busA` in the scenario call. -/
def respA : BusQueryResponse :=
  { bus_number := "DL-02", route_name := "Red Line", eta_minutes := 3,
    occupancy_percentage := 97, available_seats := 1, next_arrival := "00:03" }

/-- The result `find_buses` produces for `busB` in the scenario call. -/
def respB : BusQueryResponse :=
  { bus_number := "DL-01", route_name := "Red Line", eta_minutes := 3,
    occupancy_percentage := 12, available_seats := 35, next_arrival := "00:03" }

/-! ## Geo lemmas -/

lemma radians_swap (x y : ℝ) : radians (x - y) = -(radians (y - x)) := by
  unfold radians; ring

lemma sin_sq_swap (x y : ℝ) :
    Real.sin (radians (x - y) / 2) * Real.sin (radians (x - y) / 2) =
      Real.sin (radians (y - x) / 2) * Real.sin (radians (y - x) / 2) := by
  rw [radians_swap, neg_div, Real.sin_neg]; ring

lemma hav_a_symm (lat1 lng1 lat2 lng2 : ℝ) :
    hav_a lat1 lng1 lat2 lng2 = hav_a lat2 lng2 lat1 lng1 := by
  unfold hav_a
  rw [sin_sq_swap lat2 lat1, sin_sq_swap lng2 lng1]
  ring

lemma calculate_distance_symm (lat1 lng1 lat2 lng2 : ℝ) :
    calculate_distance lat1 lng1 lat2 lng2 = calculate_distance lat2 lng2 lat1 lng1 := by
  unfold calculate_distance
  rw [hav_a_symm]

lemma hav_a_self (lat lng : ℝ) : hav_a lat lng lat lng = 0 := by
  unfold hav_a radians
  simp

lemma calculate_distance_self (lat lng : ℝ) : calculate_distance lat lng lat lng = 0 := by
  unfold calculate_distance
  rw [hav_a_self]
  norm_num [atan2, Real.sqrt_one, Real.arctan_zero]

lemma arctan_nonneg_of_nonneg {z : ℝ} (hz : 0 ≤ z) : 0 ≤ Real.arctan z := by
  have := Real.arctan_strictMono.monotone hz
  rwa [Real.arctan_zero] at this

lemma atan2_nonneg {y x : ℝ} (hy : 0 ≤ y) : 0 ≤ atan2 y x := by
  have hpi := Real.pi_pos
  unfold atan2
  rcases lt_trichotomy x 0 with hx | hx | hx
  · rw [if_neg (by linarith), if_pos hx, if_pos hy]
    have := Real.neg_pi_div_two_lt_arctan (y / x)
    linarith
  · subst hx
    rw [if_neg (lt_irrefl 0), if_neg (lt_irrefl 0)]
    rcases eq_or_lt_of_le hy with h | h
    · rw [if_neg (by linarith), if_neg (by linarith)]
    · rw [if_pos h]
      linarith
  · rw [if_pos hx]
    exact arctan_nonneg_of_nonneg (div_nonneg hy hx.le)

lemma calculate_distance_nonneg (lat1 lng1 lat2 lng2 : ℝ) :
    0 ≤ calculate_distance lat1 lng1 lat2 lng2 := by
  unfold calculate_distance
  have h := atan2_nonneg (x := Real.sqrt (1 - hav_a lat1 lng1 lat2 lng2))
    (Real.sqrt_nonneg (hav_a lat1 lng1 lat2 lng2))
  have h2 : (0 : ℝ) ≤ 2 := by norm_num
  have h6371 : (0 : ℝ) ≤ 6371 := by norm_num
  exact mul_nonneg h6371 (mul_nonneg h2 h)

/-! ## ETA base lemmas -/

lemma eta_base_nonneg (b : Bus) (s : BusStop) : 0 ≤ eta_base b s := by
  unfold eta_base pyInt
  have hd := calculate_distance_nonneg b.current_lat b.current_lng s.lat s.lng
  have h0 : 0 ≤ calculate_distance b.current_lat b.current_lng s.lat s.lng / 20 * 60 := by
    have := div_nonneg hd (by norm_num : (0 : ℝ) ≤ 20)
    nlinarith
  rw [if_pos h0]
  exact Int.le_floor.mpr (by exact_mod_cast h0)

lemma eta_base_at_stop (b : Bus) (s : BusStop) (h1 : b.current_lat = s.lat)
    (h2 : b.current_lng = s.lng) : eta_base b s = 0 := by
  unfold eta_base
  rw [h1, h2, calculate_distance_self]
  norm_num [pyInt]

/-! ## Sorting lemmas -/

lemma mem_insertByEta {a x : BusQueryResponse} {l : List BusQueryResponse} :
    a ∈ insertByEta x l ↔ a = x ∨ a ∈ l := by
  induction l with
  | nil => simp [insertByEta]
  | cons y ys ih =>
    unfold insertByEta
    split
    all_goals simp [List.mem_cons, ih]
    all_goals tauto

lemma mem_sortByEta {a : BusQueryResponse} {l : List BusQueryResponse} :
    a ∈ sortByEta l ↔ a ∈ l := by
  induction l with
  | nil => simp [sortByEta]
  | cons x xs ih =>
    unfold sortByEta
    rw [mem_insertByEta, ih, List.mem_cons]

lemma pairwise_insertByEta {x : BusQueryResponse} {l : List BusQueryResponse}
    (h : l.Pairwise (fun a b => a.eta_minutes ≤ b.eta_minutes)) :
    (insertByEta x l).Pairwise (fun a b => a.eta_minutes ≤ b.eta_minutes) := by
  induction l with
  | nil => simp [insertByEta]
  | cons y ys ih =>
    rw [List.pairwise_cons] at h
    obtain ⟨hy, hys⟩ := h
    unfold insertByEta
    split
    · rename_i hlt
      rw [List.pairwise_cons]
      refine ⟨?_, ih hys⟩
      intro z hz
      rcases mem_insertByEta.mp hz with rfl | hzys
      · exact hlt.le
      · exact hy z hzys
    · rename_i hge
      push_neg at hge
      rw [List.pairwise_cons]
      refine ⟨?_, List.pairwise_cons.mpr ⟨hy, hys⟩⟩
      intro z hz
      rcases List.mem_cons.mp hz with rfl | hzys
      · exact hge
      · exact le_trans hge (hy z hzys)

lemma pairwise_sortByEta (l : List BusQueryResponse) :
    (sortByEta l).Pairwise (fun a b => a.eta_minutes ≤ b.eta_minutes) := by
  induction l with
  | nil => simp [sortByEta]
  | cons x xs ih =>
    unfold sortByEta
    exact pairwise_insertByEta ih

lemma filter_eta_insertByEta (x : BusQueryResponse) (l : List BusQueryResponse) (e : ℤ) :
    (insertByEta x l).filter (fun r => r.eta_minutes == e) =
      if x.eta_minutes == e then x :: l.filter (fun r => r.eta_minutes == e)
      else l.filter (fun r => r.eta_minutes == e) := by
  induction l with
  | nil => simp [insertByEta, List.filter_cons]
  | cons y ys ih =>
    unfold insertByEta
    split
    · rename_i hlt
      by_cases hx : x.eta_minutes = e
      · have hxb : (x.eta_minutes == e) = true := beq_iff_eq.mpr hx
        have hyb : (y.eta_minutes == e) = false := by
          rw [beq_eq_false_iff_ne]
          intro hc
          rw [hc] at hlt
          rw [hx] at hlt
          exact lt_irrefl _ hlt
        simp [List.filter_cons, hxb, hyb, ih]
      · have hxb : (x.eta_minutes == e) = false := beq_eq_false_iff_ne.mpr hx
        simp [List.filter_cons, hxb, ih]
    · rw [List.filter_cons]

lemma filter_eta_sortByEta (l : List BusQueryResponse) (e : ℤ) :
    (sortByEta l).filter (fun r => r.eta_minutes == e) =
      l.filter (fun r => r.eta_minutes == e) := by
  induction l with
  | nil => rfl
  | cons x xs ih =>
    unfold sortByEta
    rw [filter_eta_insertByEta, ih, List.filter_cons]

/-! ## Shape of the collected results -/

lemma mem_route_bus_pairs {db : DB} {routes : List Route} {p : Route × Bus}
    (h : p ∈ route_bus_pairs db routes) :
    ∃ r b, p = (r, b) ∧ r ∈ routes ∧ b ∈ db.buses ∧ b.route_id = r.id ∧
      b.status = "active" := by
  induction routes with
  | nil => simp [route_bus_pairs] at h
  | cons r rest ih =>
    rw [route_bus_pairs] at h
    rcases List.mem_append.mp h with h1 | h2
    · obtain ⟨b, hb, rfl⟩ := List.mem_map.mp h1
      rw [active_buses_on] at hb
      obtain ⟨hbm, hcond⟩ := List.mem_filter.mp hb
      rw [Bool.and_eq_true, beq_iff_eq, beq_iff_eq] at hcond
      exact ⟨r, b, rfl, List.mem_cons_self r rest, hbm, hcond.1, hcond.2⟩
    · obtain ⟨r2, b2, hp, hr2, hb2, hrid, hst⟩ := ih h2
      exact ⟨r2, b2, hp, List.mem_cons_of_mem r hr2, hb2, hrid, hst⟩

lemma mem_collect_aux {resp : BusQueryResponse} {now : ℕ} {jitter : ℕ → ℤ}
    {fs : BusStop} {k : ℕ} {l : List (Route × Bus)}
    (h : resp ∈ collect_aux now jitter fs k l) :
    ∃ j r b, (r, b) ∈ l ∧ resp = bus_result now jitter j fs r b := by
  induction l generalizing k with
  | nil => simp [collect_aux] at h
  | cons p rest ih =>
    obtain ⟨r, b⟩ := p
    rw [collect_aux] at h
    rcases List.mem_cons.mp h with rfl | h2
    · exact ⟨k, r, b, List.mem_cons_self _ rest, rfl⟩
    · obtain ⟨j, r2, b2, hmem, he⟩ := ih h2
      exact ⟨j, r2, b2, List.mem_cons_of_mem _ hmem, he⟩

lemma mem_collect_results {resp : BusQueryResponse} {db : DB} {now : ℕ}
    {jitter : ℕ → ℤ} {fs : BusStop} {routes : List Route}
    (h : resp ∈ collect_results db now jitter fs routes) :
    ∃ k r b, r ∈ routes ∧ b ∈ db.buses ∧ b.route_id = r.id ∧ b.status = "active" ∧
      resp = bus_result now jitter k fs r b := by
  rw [collect_results] at h
  obtain ⟨k, r, b, hpair, he⟩ := mem_collect_aux h
  obtain ⟨r2, b2, hp, hr2, hb2, hrid, hst⟩ := mem_route_bus_pairs hpair
  injection hp with h1 h2
  subst h1
  subst h2
  exact ⟨k, r, b, hr2, hb2, hrid, hst, he⟩

/-! ## Inversion of a successful `find_buses` call -/

lemma find_buses_ok {db : DB} {now : ℕ} {jitter : ℕ → ℤ} {f t : String}
    {rs : List BusQueryResponse}
    (h : find_buses db now jitter f t = Except.ok rs) :
    ∃ fs ts,
      db.bus_stops.find? (fun s => strContainsCI s.name f) = some fs ∧
      db.bus_stops.find? (fun s => strContainsCI s.name t) = some ts ∧
      rs = sortByEta (collect_results db now jitter fs
        (routes_containing_both db fs.id ts.id)) := by
  unfold find_buses find_buses_inner at h
  rcases hf : db.bus_stops.find? (fun s => strContainsCI s.name f) with _ | fs
  · rw [hf] at h
    rcases ht : db.bus_stops.find? (fun s => strContainsCI s.name t) with _ | ts <;>
      rw [ht] at h <;> simp at h
  · rw [hf] at h
    rcases ht : db.bus_stops.find? (fun s => strContainsCI s.name t) with _ | ts
    · rw [ht] at h
      simp at h
    · rw [ht] at h
      refine ⟨fs, ts, hf, ht, ?_⟩
      simpa using h.symm

/-! ## Evaluation of the scenario call on `masterDB` -/

lemma master_hf :
    masterDB.bus_stops.find? (fun s => strContainsCI s.name "Red Fort") = some redFort := rfl

lemma master_ht :
    masterDB.bus_stops.find? (fun s => strContainsCI s.name "India Gate") = some indiaGate := rfl

lemma master_routes :
    routes_containing_both masterDB redFort.id indiaGate.id = [redLine] := rfl

lemma master_pairs :
    route_bus_pairs masterDB [redLine] = [(redLine, busA), (redLine, busB)] := rfl

lemma master_collect :
    collect_results masterDB 0 j3 redFort [redLine] =
      [bus_result 0 j3 0 redFort redLine busA, bus_result 0 j3 1 redFort redLine busB] := by
  unfold collect_results
  rw [master_pairs]
  rfl

lemma busA_result : bus_result 0 j3 0 redFort redLine busA = respA := by
  unfold bus_result respA
  rw [eta_base_at_stop busA redFort rfl rfl]
  simp only [busA, redLine, j3]
  norm_num [pyIntQ]
  rfl

lemma busB_result : bus_result 0 j3 1 redFort redLine busB = respB := by
  unfold bus_result respB
  rw [eta_base_at_stop busB redFort rfl rfl]
  simp only [busB, redLine, j3]
  norm_num [pyIntQ]
  rfl

lemma master_inner :
    find_buses_inner masterDB 0 j3 "Red Fort" "India Gate" =
      Except.ok (sortByEta (collect_results masterDB 0 j3 redFort
        (routes_containing_both masterDB redFort.id indiaGate.id))) := by
  unfold find_buses_inner
  rw [master_hf, master_ht]

lemma master_eval :
    find_buses masterDB 0 j3 "Red Fort" "India Gate" = Except.ok [respA, respB] := by
  unfold find_buses
  rw [master_inner, master_routes, master_collect, busA_result, busB_result]
  rfl

/-! ## Claim theorems -/

/-- C1: calling `find_buses` with stop names that resolve to no stop raises the
404 "One or both stops not found" `HTTPException` inside the `try:` block, but
the blanket `except Exception` clause catches that very exception and replaces
it with a 500 "Error finding buses", so the caller observes a 500 error — not
the NotFound failure that both the claim and the code's own 404 construction
intend. -/
theorem find_buses_missing_stop_returns_500 :
    find_buses_inner masterDB 0 j3 "NoSuchStop" "AlsoMissing" =
      Except.error ⟨404, "One or both stops not found"⟩ ∧
    find_buses masterDB 0 j3 "NoSuchStop" "AlsoMissing" =
      Except.error ⟨500, "Error finding buses"⟩ :=
  ⟨rfl, rfl⟩

/-- C2 counterexample: on a route with two active buses of occupancy 39/40 and
5/40 both positioned at the origin stop, `find_buses` returns
`occupancy_percentage` 97 and 12 — the truncation `int(occ/cap*100)` — while the
claimed `round(100*occ/cap)` values are 98 and 13. -/
theorem occupancy_round_counterexample :
    find_buses masterDB 0 j3 "Red Fort" "India Gate" = Except.ok [respA, respB] ∧
    respA.occupancy_percentage ≠ spec_round (100 * 39 / 40) ∧
    respB.occupancy_percentage ≠ spec_round (100 * 5 / 40) := by
  refine ⟨master_eval, ?_, ?_⟩ <;> norm_num [respA, respB, spec_round]

/-- C2 (amended): every result of `find_buses` carries
`occupancy_percentage = int(100 * occupancy / capacity)` — Python truncation
toward zero, not rounding (97 and 12 for the 39/40 and 5/40 scenario buses) —
and `available_seats = capacity - occupancy`, both computed from an active bus
of the catalog. -/
theorem occupancy_fields_truncation (db : DB) (now : ℕ) (jitter : ℕ → ℤ)
    (f t : String) (rs : List BusQueryResponse)
    (h : find_buses db now jitter f t = Except.ok rs) :
    ∀ resp ∈ rs, ∃ b, b ∈ db.buses ∧ b.status = "active" ∧
      resp.occupancy_percentage =
        pyIntQ ((b.current_occupancy : ℚ) / (b.capacity : ℚ) * 100) ∧
      resp.available_seats = b.capacity - b.current_occupancy := by
  intro resp hresp
  obtain ⟨fs, ts, hf, ht, rfl⟩ := find_buses_ok h
  obtain ⟨k, r, b, hr, hb, hrid, hst, rfl⟩ := mem_collect_results (mem_sortByEta.mp hresp)
  exact ⟨b, hb, hst, rfl, rfl⟩

/-- C2 witness: the amended theorem applied to the scenario call on `masterDB`,
instantiated at the 5/40 bus's result (12% occupancy, 35 free seats). -/
theorem occupancy_fields_truncation_witness :
    ∃ b, b ∈ masterDB.buses ∧ b.status = "active" ∧
      respB.occupancy_percentage =
        pyIntQ ((b.current_occupancy : ℚ) / (b.capacity : ℚ) * 100) ∧
      respB.available_seats = b.capacity - b.current_occupancy :=
  occupancy_fields_truncation masterDB 0 j3 "Red Fort" "India Gate" [respA, respB]
    master_eval respB (by simp)

/-- C3 counterexample: two results tied at `eta_minutes = 3` come back in
catalog order — bus number "DL-02" (stored first) before "DL-01" — so ties are
not ordered by bus identity. -/
theorem eta_tie_order_counterexample :
    find_buses masterDB 0 j3 "Red Fort" "India Gate" = Except.ok [respA, respB] ∧
    respA.eta_minutes = respB.eta_minutes ∧
    respB.bus_number < respA.bus_number := by
  refine ⟨master_eval, rfl, ?_⟩
  show ("DL-01" : String) < "DL-02"
  rw [String.lt_iff_toList_lt]
  decide

/-- C3 (amended): `find_buses` results are sorted non-decreasing by
`eta_minutes`; results with equal `eta_minutes` keep the order in which the
nested loops collected them (the sort is stable and keys only on the ETA),
rather than being ordered by bus identity. -/
theorem find_buses_sorted_by_eta (db : DB) (now : ℕ) (jitter : ℕ → ℤ)
    (f t : String) (rs : List BusQueryResponse)
    (h : find_buses db now jitter f t = Except.ok rs) :
    rs.Pairwise (fun a b => a.eta_minutes ≤ b.eta_minutes) ∧
    ∃ fs ts,
      db.bus_stops.find? (fun s => strContainsCI s.name f) = some fs ∧
      db.bus_stops.find? (fun s => strContainsCI s.name t) = some ts ∧
      ∀ e : ℤ, rs.filter (fun x => x.eta_minutes == e) =
        (collect_results db now jitter fs
          (routes_containing_both db fs.id ts.id)).filter
            (fun x => x.eta_minutes == e) := by
  obtain ⟨fs, ts, hf, ht, rfl⟩ := find_buses_ok h
  exact ⟨pairwise_sortByEta _, fs, ts, hf, ht, fun e => filter_eta_sortByEta _ e⟩

/-- C3 witness: the amended theorem applied to the scenario call, giving the
sortedness of the concrete output. -/
theorem find_buses_sorted_by_eta_witness :
    ([respA, respB] : List BusQueryResponse).Pairwise
      (fun a b => a.eta_minutes ≤ b.eta_minutes) :=
  (find_buses_sorted_by_eta masterDB 0 j3 "Red Fort" "India Gate" [respA, respB]
    master_eval).1

/-- C4: the stop lookup returns the first stop of the catalog whose name
contains the query as a case-insensitive substring; when no stop name contains
the query it returns nothing and `find_buses`'s body raises the 404
"One or both stops not found" NotFound exception. -/
theorem stop_lookup_first_ci_match (db : DB) (q : String) :
    (∀ s, db.bus_stops.find? (fun x => strContainsCI x.name q) = some s →
      strContainsCI s.name q = true ∧
      ∃ l1 l2, db.bus_stops = l1 ++ s :: l2 ∧
        ∀ x ∈ l1, strContainsCI x.name q = false) ∧
    (db.bus_stops.find? (fun x => strContainsCI x.name q) = none ↔
      ∀ s ∈ db.bus_stops, strContainsCI s.name q = false) ∧
    (∀ now jitter t, db.bus_stops.find? (fun x => strContainsCI x.name q) = none →
      find_buses_inner db now jitter q t =
        Except.error ⟨404, "One or both stops not found"⟩) := by
  refine ⟨?_, ?_, ?_⟩
  · intro s hs
    rw [List.find?_eq_some] at hs
    obtain ⟨hp, l1, l2, heq, hall⟩ := hs
    refine ⟨hp, l1, l2, heq, ?_⟩
    intro x hx
    simpa using hall x hx
  · rw [List.find?_eq_none]
    constructor
    · intro h s hs
      simpa using h s hs
    · intro h s hs
      simp [h s hs]
  · intro now jitter t hnone
    unfold find_buses_inner
    rw [hnone]

/-- C4 witness: on the seeded catalog the queries "red fort" and "Fort" both
match the stop named "Red Fort", and the lookup returns that (first) stop. -/
theorem stop_lookup_first_ci_match_witness :
    (strContainsCI "Red Fort" "red fort" = true ∧
      ∃ l1 l2, masterDB.bus_stops = l1 ++ redFort :: l2 ∧
        ∀ x ∈ l1, strContainsCI x.name "red fort" = false) ∧
    strContainsCI "Red Fort" "Fort" = true :=
  ⟨(stop_lookup_first_ci_match masterDB "red fort").1 redFort rfl, by decide⟩

/-- C5: each `find_buses` result's ETA is
`int(distance(bus, from_stop) / 20 * 60) + randint(2, 8)`; with the jitter in
[2, 8], every ETA is a positive integer, and a bus positioned exactly at the
origin stop's coordinate gets an ETA in [2, 10]. -/
theorem eta_formula_bounds (db : DB) (now : ℕ) (jitter : ℕ → ℤ) (f t : String)
    (rs : List BusQueryResponse)
    (hj : ∀ k, 2 ≤ jitter k ∧ jitter k ≤ 8)
    (h : find_buses db now jitter f t = Except.ok rs) :
    ∀ resp ∈ rs, 0 < resp.eta_minutes ∧
      ∃ fs k b,
        db.bus_stops.find? (fun s => strContainsCI s.name f) = some fs ∧
        b ∈ db.buses ∧ b.status = "active" ∧
        resp.eta_minutes =
          pyInt (calculate_distance b.current_lat b.current_lng fs.lat fs.lng
            / 20 * 60) + jitter k ∧
        (b.current_lat = fs.lat ∧ b.current_lng = fs.lng →
          2 ≤ resp.eta_minutes ∧ resp.eta_minutes ≤ 10) := by
  intro resp hresp
  obtain ⟨fs, ts, hf, ht, rfl⟩ := find_buses_ok h
  obtain ⟨k, r, b, hr, hb, hrid, hst, rfl⟩ := mem_collect_results (mem_sortByEta.mp hresp)
  have hbase := eta_base_nonneg b fs
  obtain ⟨hj2, hj8⟩ := hj k
  have heta : (bus_result now jitter k fs r b).eta_minutes = eta_base b fs + jitter k := rfl
  constructor
  · rw [heta]
    omega
  · refine ⟨fs, k, b, hf, hb, hst, rfl, ?_⟩
    rintro ⟨h1, h2⟩
    have h0 : eta_base b fs = 0 := eta_base_at_stop b fs h1 h2
    rw [heta, h0]
    omega

/-- C5 witness: the theorem applied to the scenario call with the constant
jitter 3, at the 39/40 bus's result (ETA 3, in [2, 10]). -/
theorem eta_formula_bounds_witness :
    0 < respA.eta_minutes ∧
    ∃ fs k b,
      masterDB.bus_stops.find? (fun s => strContainsCI s.name "Red Fort") = some fs ∧
      b ∈ masterDB.buses ∧ b.status = "active" ∧
      respA.eta_minutes =
        pyInt (calculate_distance b.current_lat b.current_lng fs.lat fs.lng
          / 20 * 60) + j3 k ∧
      (b.current_lat = fs.lat ∧ b.current_lng = fs.lng →
        2 ≤ respA.eta_minutes ∧ respA.eta_minutes ≤ 10) :=
  eta_formula_bounds masterDB 0 j3 "Red Fort" "India Gate" [respA, respB]
    (fun _ => ⟨by norm_num [j3], by norm_num [j3]⟩) master_eval respA (by simp)

/-- C6: the route-matching step returns exactly the routes whose stop sequence
contains both resolved stop ids — membership only, independent of the order or
adjacency of the two ids in the sequence (and symmetric in the two ids). -/
theorem routes_containing_both_characterization (db : DB) (a b : String) :
    (∀ r : Route, r ∈ routes_containing_both db a b ↔
      r ∈ db.routes ∧ a ∈ r.stops ∧ b ∈ r.stops) ∧
    routes_containing_both db a b = routes_containing_both db b a := by
  constructor
  · intro r
    unfold routes_containing_both
    rw [List.mem_filter, Bool.and_eq_true]
    rw [List.elem_iff, List.elem_iff]
  · unfold routes_containing_both
    have hpred : (fun r : Route => r.stops.contains a && r.stops.contains b) =
        (fun r : Route => r.stops.contains b && r.stops.contains a) := by
      funext r
      rw [Bool.and_comm]
    rw [hpred]

/-- C6 witness: the Red Line (stops ["stop-1", "stop-2"]) is matched for the
resolved pair of ids. -/
theorem routes_containing_both_characterization_witness :
    redLine ∈ routes_containing_both masterDB "stop-1" "stop-2" :=
  ((routes_containing_both_characterization masterDB "stop-1" "stop-2").1 redLine).mpr
    ⟨by simp [masterDB], by simp [redLine], by simp [redLine]⟩

/-- C7: `calculate_distance` is symmetric in its two coordinates and is zero on
identical points. -/
theorem calculate_distance_symm_self :
    (∀ lat1 lng1 lat2 lng2 : ℝ,
      calculate_distance lat1 lng1 lat2 lng2 = calculate_distance lat2 lng2 lat1 lng1) ∧
    (∀ lat lng : ℝ, calculate_distance lat lng lat lng = 0) :=
  ⟨calculate_distance_symm, calculate_distance_self⟩

/-- C8: `interpolate_position` is the componentwise linear blend of its two
endpoints; progress 0 gives the start point and progress 1 the end point. -/
theorem interpolate_position_blend_endpoints :
    (∀ a b c d t : ℝ, interpolate_position a b c d t =
      ((1 - t) * a + t * c, (1 - t) * b + t * d)) ∧
    (∀ a b c d : ℝ, interpolate_position a b c d 0 = (a, b)) ∧
    (∀ a b c d : ℝ, interpolate_position a b c d 1 = (c, d)) := by
  refine ⟨?_, ?_, ?_⟩ <;> intros <;> exact Prod.ext (by unfold interpolate_position; ring)
    (by unfold interpolate_position; ring)

lemma length_filter_add_length_filter_not {α : Type} (l : List α) (p : α → Bool) :
    (l.filter p).length + (l.filter (fun a => !(p a))).length = l.length := by
  induction l with
  | nil => rfl
  | cons a t ih =>
    by_cases h : p a
    · simp [List.filter_cons, h]
      omega
    · simp [List.filter_cons, h]
      omega

/-- C9: `get_fleet_status` reports `offline_buses` as `total_buses` minus
`active_buses`, which equals the number of buses whose status differs from
"active" — so maintenance buses count as offline in the aggregate. -/
theorem fleet_status_offline_count (db : DB) :
    (get_fleet_status db).offline_buses =
      (db.buses.length : ℤ) -
        ((db.buses.filter (fun b => b.status == "active")).length : ℤ) ∧
    (get_fleet_status db).offline_buses =
      ((db.buses.filter (fun b => !(b.status == "active"))).length : ℤ) := by
  constructor
  · rfl
  · show (db.buses.length : ℤ) -
      ((db.buses.filter (fun b => b.status == "active")).length : ℤ) = _
    have h := length_filter_add_length_filter_not db.buses (fun b => b.status == "active")
    omega

/-- C10: when the summed capacity of all buses is zero (for example, when no
buses exist) `get_fleet_status` reports `occupancy_rate` as 0 — the guard
`if total_capacity > 0` avoids the division. -/
theorem fleet_status_zero_capacity_rate (db : DB)
    (h : (db.buses.map Bus.capacity).sum = 0) :
    (get_fleet_status db).occupancy_rate = 0 := by
  unfold get_fleet_status
  simp [h]

/-- C10 witness: the empty fleet has zero total capacity and reported
occupancy rate 0. -/
theorem fleet_status_zero_capacity_rate_witness :
    (emptyDB.buses.map Bus.capacity).sum = 0 ∧
    (get_fleet_status emptyDB).occupancy_rate = 0 :=
  ⟨rfl, fleet_status_zero_capacity_rate emptyDB rfl⟩

end BusFleet
